import Mathlib

/-!
Verification of the NetMonkey network-scanner engine against its
natural-language specification.

The definitions below are a shallow embedding of the Rust sources:
  - `src/core/src/scanner.rs` (`ScannedIp`, `ScanMessage`,
    `scan_network_async`, `create_network_scanner`),
  - `src/src/views/ip_scan.rs` (the GUI `subscription` scan loop, which
    duplicates the per-probe emission logic of the core scanner),
  - `src/src/views/settings.rs` (`AppConfig`, `AppConfig::left_shift`,
    `AppConfig::subnet_mask_long`, `AppConfig::update`),
  - `src/components/src/subnet_slider.rs` (`SubnetSlider::new`,
    `SubnetSlider::to_dotted_decimal`).

IPv4 addresses are modelled as their `u32` value (a `Nat`), durations as
their millisecond count (a `Nat`), and machine-integer truncation is made
explicit with `% 2 ^ 32` / `% 256` where the Rust code relies on it.
-/

namespace NetMonkey

/-- `ScannedIp` from `src/core/src/scanner.rs`: the result record for one
probed address.  `ip` is the IPv4 address as its 32-bit value, `ping` the
round-trip time in milliseconds (`u128` in the source). -/
structure ScannedIp where
  alive : Bool
  ip : Nat
  ping : Nat
  ports : List Nat
deriving DecidableEq

/-- `ScannedIp::new(ip, alive, ping, ports)` from `scanner.rs`. -/
def ScannedIp.new (ip : Nat) (alive : Bool) (ping : Nat) (ports : List Nat) : ScannedIp :=
  { alive := alive, ip := ip, ping := ping, ports := ports }

/-- `ScanMessage` from `scanner.rs`: the events sent on the scan channel. -/
inductive ScanMessage where
  | Result (s : ScannedIp)
  | Complete
deriving DecidableEq

/-- Outcome of one `surge_ping` probe as matched by the scanner:
`some d` for `Ok((_, duration))` with `d` the millisecond round-trip time,
`none` for `Err(_)` (timeout or any transport error). -/
abbrev ProbeOutcome := Option Nat

/-- The events one probe task pushes onto the channel, from the `match` in
`create_network_scanner` (and, identically, in the `subscription` loop of
`ip_scan.rs`): on `Ok` it sends one `Result` built with `alive = true` and
an empty port list; on `Err` it only prints a log line and sends nothing. -/
def probeEvents (ip : Nat) (outcome : ProbeOutcome) : List ScanMessage :=
  match outcome with
  | some d => [ScanMessage.Result (ScannedIp.new ip true d [])]
  | none => []

/-- The full event sequence observed on one session's channel, given the
probes listed in their completion (arrival) order: each resolving probe
immediately pushes its events, and after `join_all` returns the task sends
the single `Complete` (`create_network_scanner`, lines 150-172). -/
def scannerEvents (completions : List (Nat × ProbeOutcome)) : List ScanMessage :=
  (completions.map fun c => probeEvents c.1 c.2).flatten ++ [ScanMessage.Complete]

/-- The `ScannedIp` values produced by a run, in completion order: one per
successful probe, none for a failed probe (the `Ok` arms of both scan
functions). -/
def resultsOf (cs : List (Nat × ProbeOutcome)) : List ScannedIp :=
  cs.filterMap fun c => c.2.map fun d => ScannedIp.new c.1 true d []

/-- Whether a `ScanMessage` is a `Result` event. -/
def isResult : ScanMessage → Bool
  | ScanMessage.Result _ => true
  | ScanMessage.Complete => false

/-- Whether a `ScanMessage` is the `Complete` event. -/
def isComplete : ScanMessage → Bool
  | ScanMessage.Result _ => false
  | ScanMessage.Complete => true

/-- `scan_network_async` from `scanner.rs`, at the level of its observable
behaviour.  `setupOk` records whether `surge_ping::Client::new` succeeded:
on failure the `?` operator returns `Err` before any probe is dispatched or
any callback invoked; on success every successful probe invokes
`result_callback` (in completion order) and, after `join_all`,
`complete_callback` is invoked once (`true`) and `Ok(())` is returned. -/
def scan_network_async (setupOk : Bool) (cs : List (Nat × ProbeOutcome)) :
    Except Unit (List ScannedIp × Bool) :=
  if setupOk then Except.ok (resultsOf cs, true) else Except.error ()

/-- `create_network_scanner` from `scanner.rs`, at the level of its
observable behaviour.  The function builds an unbounded channel, spawns the
scanning task and returns the receiver unconditionally, so the value is
always `some channelContents`.  `setupOk` records whether
`surge_ping::Client::new(..).unwrap()` inside the spawned task succeeded:
on failure the task panics before sending anything, every sender is
dropped, and the returned channel yields no events at all (not even
`Complete`); on success the channel carries `scannerEvents cs`. -/
def create_network_scanner (setupOk : Bool) (cs : List (Nat × ProbeOutcome)) :
    Option (List ScanMessage) :=
  some (if setupOk then scannerEvents cs else [])

/-- `let ip_range = 0xffffffff_u32 >> mask;` from `create_network_scanner`
(line 144).  Rust's checked shift on `u32` is an arithmetic-overflow error
when the shift amount is ≥ 32, modelled as `none`. -/
def scanner_ip_range (mask : Nat) : Option Nat :=
  if mask < 32 then some (0xffffffff >>> mask) else none

/-- Number of addresses the loop `for n in 0..=ip_range` iterates over:
`ip_range + 1` when the shift is defined. -/
def scanner_range_size (mask : Nat) : Option Nat :=
  (scanner_ip_range mask).map fun r => r + 1

/-- The per-iteration probe address in `create_network_scanner` (line 146):
the source line is `let ip = IpAddr::V4();`, an unfinished constructor call
with no arguments — it derives no address from the loop counter `n` or from
the `ip`/`mask` parameters (which it shadows).  Modelled as `none`: no
address is produced. -/
def scanner_probe_addr (_base _mask _n : Nat) : Option Nat := none

/-- The 32-bit network mask of a CIDR length `p` (`0xFFFFFFFF << (32 - p)`
truncated to 32 bits). -/
def cidrMask (p : Nat) : Nat := (0xffffffff <<< (32 - p)) % 2 ^ 32

/-- Modelled from the spec: the address-from-offset derivation of §4.1 —
the i-th address probed is the network-masked base address plus the offset.
The source's own derivation in `create_network_scanner` is the unfinished
call modelled by `scanner_probe_addr` above. -/
def spec_probe_addr (base p n : Nat) : Nat := (base &&& cidrMask p) + n

/-- Modelled from the spec: the full ordered range of §4.1, offsets `0` to
`2 ^ (32 - p) - 1` inclusive applied to the network-masked base. -/
def spec_compute_range (base p : Nat) : List Nat :=
  (List.range (2 ^ (32 - p))).map fun n => spec_probe_addr base p n

/-- `AppConfig::left_shift` from `src/src/views/settings.rs` (lines
143-149), with `self.subnet_mask` passed explicitly.  All arithmetic is on
`u8`: the guard `value - self.subnet_mask > 7` makes the shift amount of
the middle arm at most 7, and the `u8` shift result keeps only the low
eight bits, written here as `% 256`. -/
def left_shift (subnet_mask value : Nat) : Nat :=
  if subnet_mask < value then
    if value - subnet_mask > 7 then 0
    else (255 <<< min (value - subnet_mask) 8) % 256
  else 255

/-- `AppConfig::subnet_mask_long` from `settings.rs` (lines 150-158):
`format!("{}.{}.{}.{}", ...)` over the four octet boundaries. -/
def subnet_mask_long (subnet_mask : Nat) : String :=
  Nat.repr (left_shift subnet_mask 8) ++ "." ++ Nat.repr (left_shift subnet_mask 16) ++ "." ++
    Nat.repr (left_shift subnet_mask 24) ++ "." ++ Nat.repr (left_shift subnet_mask 32)

/-- `SubnetSlider::to_dotted_decimal` from
`src/components/src/subnet_slider.rs` (lines 85-100).  `cidr.clamp(1, 32)`
is `min (max cidr 1) 32`; the `u32` mask `0xFFFFFFFF << (32 - cidr)` is
truncated to 32 bits. -/
def to_dotted_decimal (cidr : Nat) : String :=
  let c := min (max cidr 1) 32
  let mask := if c = 32 then 0xFFFFFFFF else (0xFFFFFFFF <<< (32 - c)) % 2 ^ 32
  Nat.repr ((mask >>> 24) &&& 0xFF) ++ "." ++ Nat.repr ((mask >>> 16) &&& 0xFF) ++ "." ++
    Nat.repr ((mask >>> 8) &&& 0xFF) ++ "." ++ Nat.repr (mask &&& 0xFF)

/-- The `value` field stored by `SubnetSlider::new` (`subnet_slider.rs`,
lines 52-63): `value.clamp(1, 32)`. -/
def slider_new_value (value : Nat) : Nat := min (max value 1) 32

/-- The octet formula of spec §4.1: at octet boundary `v`, the octet is
`0xFF` left-shifted by `max(0, min(8, v - prefix_len))` bits, saturating to
`0` when the shift reaches 8.  Natural-number subtraction `v - p` is
`max(0, v - p)`, and `% 256` keeps the octet's low eight bits (so a shift
of 8 yields 0). -/
def specMaskOctet (p v : Nat) : Nat := (255 <<< min 8 (v - p)) % 256

/-- The dotted-decimal mask string built from the spec's octet formula at
the four boundaries 8, 16, 24, 32. -/
def subnet_mask_dotted_spec (p : Nat) : String :=
  Nat.repr (specMaskOctet p 8) ++ "." ++ Nat.repr (specMaskOctet p 16) ++ "." ++
    Nat.repr (specMaskOctet p 24) ++ "." ++ Nat.repr (specMaskOctet p 32)

/-- Rust's `str::parse::<uN>` for an unsigned integer type with maximum
value `bound`: an optional leading `+`, then at least one ASCII digit, and
the value must fit in the type; anything else is an error (`none`).
A leading `-`, whitespace, or any non-digit character fails. -/
def parseUint (bound : Nat) (s : String) : Option Nat :=
  let cs := s.toList
  let ds := if cs.head? = some '+' then cs.tail else cs
  if ds.isEmpty then none
  else if ds.all Char.isDigit then
    let v := ds.foldl (fun a c => a * 10 + (c.toNat - 48)) 0
    if v ≤ bound then some v else none
  else none

/-- `str::parse::<u8>`. -/
def parseU8 (s : String) : Option Nat := parseUint 255 s

/-- `str::parse::<u16>`. -/
def parseU16 (s : String) : Option Nat := parseUint 65535 s

/-- `AppConfig` from `settings.rs` (lines 116-123), restricted to the
fields the scanner and the claims read; the `forced_ip_mode` and `theme`
fields carry no scan-relevant state and are omitted. -/
structure AppConfig where
  starting_ip : String
  subnet_mask : Nat
  ports : List Nat
deriving DecidableEq

/-- `ChangeConfig` from `settings.rs` (lines 251-258), restricted to the
string-carrying variants handled by the modelled `update` arms. -/
inductive ChangeConfig where
  | StartingIp (s : String)
  | SubnetMask (s : String)
  | Ports (s : String)

/-- `AppConfig::update` from `settings.rs` (lines 159-168), on the modelled
variants.  `SubnetMask` stores `mask.parse().unwrap_or_default()` — the
`u8` default is `0` when parsing fails; `Ports` keeps the successfully
parsed comma-separated entries (`split(',')` with `filter_map`). -/
def AppConfig.update (c : AppConfig) : ChangeConfig → AppConfig
  | ChangeConfig.StartingIp ip => { c with starting_ip := ip }
  | ChangeConfig.SubnetMask m => { c with subnet_mask := (parseU8 m).getD 0 }
  | ChangeConfig.Ports p => { c with ports := (p.splitOn ",").filterMap parseU16 }

/-! ### Structural lemmas about the event stream -/

/-- The concatenated per-probe emissions are exactly one `Result` per
successful probe, in completion order. -/
theorem probeFlat_eq (cs : List (Nat × ProbeOutcome)) :
    (cs.map fun c => probeEvents c.1 c.2).flatten = (resultsOf cs).map ScanMessage.Result := by
  induction cs with
  | nil => rfl
  | cons c t ih =>
    obtain ⟨ip, oc⟩ := c
    cases oc <;> simp [probeEvents, resultsOf, List.filterMap_cons] at ih ⊢ <;> simpa using ih

/-- A session's channel carries the `Result` events of its successful
probes, in completion order, then the single `Complete`. -/
theorem scannerEvents_eq (cs : List (Nat × ProbeOutcome)) :
    scannerEvents cs = (resultsOf cs).map ScanMessage.Result ++ [ScanMessage.Complete] := by
  unfold scannerEvents
  rw [probeFlat_eq]

/-- One result is kept per successful probe. -/
theorem resultsOf_length (cs : List (Nat × ProbeOutcome)) :
    (resultsOf cs).length = cs.countP fun c => c.2.isSome := by
  induction cs with
  | nil => rfl
  | cons c t ih =>
    obtain ⟨ip, oc⟩ := c
    cases oc <;> simp [resultsOf, List.filterMap_cons, List.countP_cons] at ih ⊢ <;> simpa using ih

/-- The only `Complete` in the channel sequence sits at the final index. -/
theorem complete_index_eq (rs : List ScannedIp) (i : Nat)
    (h : (rs.map ScanMessage.Result ++ [ScanMessage.Complete]).get? i = some ScanMessage.Complete) :
    i = rs.length := by
  induction rs generalizing i with
  | nil =>
    cases i with
    | zero => rfl
    | succ n => simp at h
  | cons r t ih =>
    cases i with
    | zero => simp at h
    | succ n =>
      have : n = t.length := ih n (by simpa using h)
      simp [this]

/-! ### Claim theorems -/

/-- Claim C1, counterexample: a session over a range of size K = 1 whose
single probe fails emits zero `Result` events — not the one-per-probe the
claim requires — before `Complete`. -/
theorem one_failed_probe_emits_no_result :
    (scannerEvents [(0, (none : ProbeOutcome))]).countP isResult = 0 ∧
    [((0 : Nat), (none : ProbeOutcome))].length = 1 ∧
    ¬((scannerEvents [(0, (none : ProbeOutcome))]).countP isResult
        = [((0 : Nat), (none : ProbeOutcome))].length) := by
  refine ⟨by decide, by decide, by decide⟩

/-- Claim C1, amended: for a session whose K probes resolve in completion
order `cs`, the channel carries exactly one `Result` event per successful
probe (failed or timed-out probes emit nothing, so at most K `Result`
events), followed by exactly one `Complete` event. -/
theorem results_per_success_then_complete (cs : List (Nat × ProbeOutcome)) :
    scannerEvents cs = (resultsOf cs).map ScanMessage.Result ++ [ScanMessage.Complete] ∧
    (scannerEvents cs).countP isResult = cs.countP (fun c => c.2.isSome) ∧
    (scannerEvents cs).countP isResult ≤ cs.length ∧
    (scannerEvents cs).countP isComplete = 1 := by
  have he := scannerEvents_eq cs
  have hlen : (scannerEvents cs).countP isResult = (resultsOf cs).length := by
    rw [he]
    simp [List.countP_append, List.countP_cons, isResult, List.countP_map, Function.comp]
  refine ⟨he, ?_, ?_, ?_⟩
  · rw [hlen, resultsOf_length]
  · rw [hlen, resultsOf_length]
    exact List.countP_le_length _
  · rw [he]
    simp [List.countP_append, List.countP_cons, isComplete, List.countP_map, Function.comp]

/-- Claim C2, counterexample: the probe of address 7 fails, and the session
surfaces no `Result` event at all for it (in particular none with
`alive = false`) — the failure is only logged. -/
theorem failed_probe_not_surfaced :
    scannerEvents [(7, (none : ProbeOutcome))] = [ScanMessage.Complete] ∧
    (scannerEvents [(7, (none : ProbeOutcome))]).countP isResult = 0 := by
  refine ⟨by decide, by decide⟩

/-- Claim C2, amended: a failing probe is recovered locally — it never
propagates an error to the caller (`scan_network_async` still returns
`Ok`) — but it is not surfaced as a `Result` event either: a session all of
whose probes fail emits nothing but the single `Complete`. -/
theorem failed_probes_silently_dropped (cs : List (Nat × ProbeOutcome))
    (h : ∀ c ∈ cs, c.2 = none) :
    scannerEvents cs = [ScanMessage.Complete] ∧
    scan_network_async true cs = Except.ok ([], true) := by
  have hr : resultsOf cs = [] := by
    rw [resultsOf, List.filterMap_eq_nil_iff]
    intro c hc
    rw [h c hc]
    rfl
  constructor
  · rw [scannerEvents_eq, hr]
    rfl
  · simp [scan_network_async, hr]

/-- Witness for `failed_probes_silently_dropped` at a concrete two-probe
session in which both probes time out. -/
theorem failed_probes_silently_dropped_witness :
    scannerEvents [(7, (none : ProbeOutcome)), (9, none)] = [ScanMessage.Complete] ∧
    scan_network_async true [(7, (none : ProbeOutcome)), (9, none)] = Except.ok ([], true) :=
  failed_probes_silently_dropped [(7, none), (9, none)] (by decide)

/-- Claim C6, counterexample: a session whose probing client fails to open
is still handed a channel (`create_network_scanner` returns the receiver
unconditionally), and that channel emits zero `Complete` events — not the
exactly one the claim asserts for every session's channel. -/
theorem setup_failure_channel_has_no_complete :
    create_network_scanner false [] = some [] ∧
    ((create_network_scanner false []).getD []).countP isComplete = 0 ∧
    ¬(((create_network_scanner false []).getD []).countP isComplete = 1) :=
  ⟨rfl, rfl, by decide⟩

/-- Claim C6, amended: on a session whose probing client opened
successfully, the returned channel carries `scannerEvents cs`, on which
`Complete` is emitted exactly once and is strictly the last event — any
index holding `Complete` is followed by no event at all; on a setup-failure
session the returned channel emits no events whatsoever (so still no event
ever follows a `Complete`, but no `Complete` is emitted either). -/
theorem complete_once_and_last_unless_setup_fails (cs : List (Nat × ProbeOutcome)) :
    create_network_scanner true cs = some (scannerEvents cs) ∧
    (scannerEvents cs).countP isComplete = 1 ∧
    (∀ i j, i < j → (scannerEvents cs).get? i = some ScanMessage.Complete →
      (scannerEvents cs).get? j = none) ∧
    create_network_scanner false cs = some [] := by
  have he := scannerEvents_eq cs
  refine ⟨rfl, ?_, ?_, rfl⟩
  · rw [he]
    simp [List.countP_append, List.countP_cons, isComplete, List.countP_map, Function.comp]
  · intro i j hij hi
    rw [he] at hi ⊢
    have hlen := complete_index_eq (resultsOf cs) i hi
    rw [List.get?_eq_none]
    simp only [List.length_append, List.length_map, List.length_singleton]
    omega

/-- Witness for `complete_once_and_last_unless_setup_fails`: the empty
session's channel is `[Complete]`; `Complete` sits at index 0 and index 1
is past the end. -/
theorem complete_once_and_last_witness :
    create_network_scanner true [] = some (scannerEvents []) ∧
    (scannerEvents []).countP isComplete = 1 ∧
    (scannerEvents []).get? 1 = none ∧
    create_network_scanner false [] = some [] :=
  ⟨(complete_once_and_last_unless_setup_fails []).1,
    (complete_once_and_last_unless_setup_fails []).2.1,
    (complete_once_and_last_unless_setup_fails []).2.2.1 0 1 (by decide) (by decide),
    (complete_once_and_last_unless_setup_fails []).2.2.2⟩

/-- Claim C9: every `ScannedIp` the scanner ever emits — as a `Result`
event on the channel or through the result callback — has `alive = true`
and an empty port list; no dead-host result and no populated port list is
ever produced. -/
theorem emitted_results_always_alive_no_ports (cs : List (Nat × ProbeOutcome)) (s : ScannedIp)
    (h : ScanMessage.Result s ∈ scannerEvents cs ∨ s ∈ resultsOf cs) :
    s.alive = true ∧ s.ports = [] := by
  have hres : s ∈ resultsOf cs := by
    rcases h with h | h
    · rw [scannerEvents_eq] at h
      rcases List.mem_append.mp h with h | h
      · rcases List.mem_map.mp h with ⟨a, ha, hae⟩
        cases hae
        exact ha
      · simp at h
    · exact h
  rcases List.mem_filterMap.mp hres with ⟨c, _, hc⟩
  rcases Option.map_eq_some'.mp hc with ⟨d, _, hd⟩
  rw [← hd]
  exact ⟨rfl, rfl⟩

/-- Witness for `emitted_results_always_alive_no_ports`: the single
successful probe of address 5 with a 3 ms round trip. -/
theorem emitted_results_always_alive_no_ports_witness :
    (ScannedIp.new 5 true 3 []).alive = true ∧ (ScannedIp.new 5 true 3 []).ports = [] :=
  emitted_results_always_alive_no_ports [(5, some 3)] (ScannedIp.new 5 true 3 [])
    (Or.inl (by decide))

/-- Claim C3: for every prefix length in `[1, 31]` the loop bound
`0xffffffff >> mask` yields exactly `2 ^ (32 - mask)` addresses; at prefix
length 32, where the claim requires exactly one address, the `u32` shift
amount reaches 32 and the shift is an arithmetic overflow — no range is
computed at all. -/
theorem range_size_ok_below_32_overflow_at_32 :
    (∀ m, m ≤ 31 → 1 ≤ m → scanner_range_size m = some (2 ^ (32 - m))) ∧
    scanner_range_size 32 = none := by
  refine ⟨by decide, rfl⟩

/-- Witness for `range_size_ok_below_32_overflow_at_32` at prefix 24 — a
/24 sweep covers `2 ^ 8 = 256` addresses — together with the overflow at
prefix 32. -/
theorem range_size_witness :
    scanner_range_size 24 = some (2 ^ (32 - 24)) ∧ scanner_range_size 32 = none :=
  ⟨range_size_ok_below_32_overflow_at_32.1 24 (by decide) (by decide),
    range_size_ok_below_32_overflow_at_32.2⟩

/-- Claim C4: the source's per-iteration address expression is the
unfinished call `IpAddr::V4()` and derives no address from the loop counter
(`scanner_probe_addr` is `none` at base `192.168.1.5`, prefix 30,
offset 0), while the intended derivation of spec §4.1 gives the
network-masked base `192.168.1.4` there; on the spec model the i-th address
of the range is the masked base plus the offset `i`, for every offset below
`2 ^ (32 - p)`. -/
theorem draft_addr_unfinished_vs_spec :
    scanner_probe_addr 0xC0A80105 30 0 = none ∧
    spec_probe_addr 0xC0A80105 30 0 = 0xC0A80104 ∧
    ∀ base p n, n < 2 ^ (32 - p) →
      (spec_compute_range base p).get? n = some (spec_probe_addr base p n) := by
  refine ⟨rfl, by decide, ?_⟩
  intro base p n hn
  simp [spec_compute_range, List.get?_eq_getElem?, List.getElem?_map, List.getElem?_range hn]

/-- Witness for `draft_addr_unfinished_vs_spec`: the draft produces no
address while the spec model places `192.168.1.7` at offset 3 of the
`192.168.1.5/30` sweep. -/
theorem draft_addr_witness :
    scanner_probe_addr 0xC0A80105 30 0 = none ∧
    (spec_compute_range 0xC0A80105 30).get? 3 = some (spec_probe_addr 0xC0A80105 30 3) :=
  ⟨draft_addr_unfinished_vs_spec.1,
    draft_addr_unfinished_vs_spec.2.2 0xC0A80105 30 3 (by decide)⟩

/-- Claim C5, counterexample: with the probing client failing to open
(`setupOk = false`), `create_network_scanner` still hands the caller a
receiver (`some _`): the setup failure happens inside the spawned task,
after the channel has been returned, and the channel then carries no events
at all; only the callback variant `scan_network_async` fails with an
error. -/
theorem channel_returned_despite_setup_failure :
    create_network_scanner false [] = some [] ∧
    (create_network_scanner false []).isSome = true ∧
    scan_network_async false [] = Except.error () :=
  ⟨rfl, rfl, rfl⟩

/-- Claim C5, amended: session-level setup failure is fatal only in the
callback API — `scan_network_async` returns an error before invoking any
callback; the channel API `create_network_scanner` returns the receiver
unconditionally, and on setup failure the spawned task dies before sending
anything, so the returned channel yields no events (not even `Complete`). -/
theorem setup_failure_behaviour (cs : List (Nat × ProbeOutcome)) :
    scan_network_async false cs = Except.error () ∧
    create_network_scanner false cs = some [] ∧
    create_network_scanner true cs = some (scannerEvents cs) :=
  ⟨rfl, rfl, rfl⟩

/-- Claim C7: for every prefix length in `[1, 32]`, both mask renderings —
`AppConfig::subnet_mask_long` and `SubnetSlider::to_dotted_decimal` —
produce exactly the dotted-decimal string of the spec's octet formula, and
that formula yields the four example strings of the spec. -/
theorem mask_strings_match_spec (p : Nat) (hp : p ≤ 32) (h1 : 1 ≤ p) :
    subnet_mask_long p = subnet_mask_dotted_spec p ∧
    to_dotted_decimal p = subnet_mask_dotted_spec p ∧
    subnet_mask_dotted_spec 24 = "255.255.255.0" ∧
    subnet_mask_dotted_spec 16 = "255.255.0.0" ∧
    subnet_mask_dotted_spec 8 = "255.0.0.0" ∧
    subnet_mask_dotted_spec 32 = "255.255.255.255" := by
  revert hp h1
  revert p
  decide

/-- Witness for `mask_strings_match_spec` at prefix length 24. -/
theorem mask_strings_witness :
    subnet_mask_long 24 = subnet_mask_dotted_spec 24 ∧
    to_dotted_decimal 24 = subnet_mask_dotted_spec 24 :=
  ⟨(mask_strings_match_spec 24 (by decide) (by decide)).1,
    (mask_strings_match_spec 24 (by decide) (by decide)).2.1⟩

/-- Claim C8, counterexample: `create_network_scanner` consumes the prefix
length without clamping: at prefix 0 it computes a range of `2 ^ 32`
addresses from the out-of-range value, instead of the `2 ^ 31` it would
compute after clamping to 1 the way `SubnetSlider::new` does. -/
theorem scanner_uses_unclamped_mask :
    scanner_ip_range 0 = some (2 ^ 32 - 1) ∧
    slider_new_value 0 = 1 ∧
    scanner_ip_range 1 = some (2 ^ 31 - 1) ∧
    scanner_ip_range 0 ≠ scanner_ip_range (slider_new_value 0) := by
  refine ⟨by decide, by decide, by decide, by decide⟩

/-- Claim C8, amended: the clamping policy is not applied consistently.
`SubnetSlider::new` stores `value.clamp(1, 32)` (always in `[1, 32]`) and
`SubnetSlider::to_dotted_decimal` clamps before use (it is invariant under
pre-clamping its argument), but `create_network_scanner` uses the raw mask
unclamped in its shift: prefix 0 yields a `2 ^ 32`-address sweep, and any
prefix ≥ 32 overflows the shift. -/
theorem clamping_inconsistent_across_consumers :
    (∀ v, slider_new_value v = min (max v 1) 32 ∧
      1 ≤ slider_new_value v ∧ slider_new_value v ≤ 32) ∧
    (∀ v, to_dotted_decimal v = to_dotted_decimal (slider_new_value v)) ∧
    scanner_ip_range 0 = some (2 ^ 32 - 1) ∧
    scanner_ip_range 33 = none := by
  refine ⟨?_, ?_, by decide, by decide⟩
  · intro v
    refine ⟨rfl, ?_, ?_⟩ <;> (simp only [slider_new_value]; omega)
  · intro v
    have h : min (max (min (max v 1) 32) 1) 32 = min (max v 1) 32 := by omega
    simp only [to_dotted_decimal, slider_new_value, h]

/-- Claim C10: when the subnet-mask text does not parse as an unsigned
integer, `AppConfig::update` with `ChangeConfig::SubnetMask` stores
`unwrap_or_default()`, i.e. `0` — outside the valid range `[1, 32]` —
regardless of the previously stored value. -/
theorem unparsable_subnet_mask_becomes_zero (c : AppConfig) (s : String)
    (h : parseU8 s = none) :
    (c.update (ChangeConfig.SubnetMask s)).subnet_mask = 0 ∧
    ¬(1 ≤ (c.update (ChangeConfig.SubnetMask s)).subnet_mask) := by
  simp [AppConfig.update, h]

/-- Witness for `unparsable_subnet_mask_becomes_zero`: updating the default
configuration (mask 24) with the unparsable text `"abc"`. -/
theorem unparsable_subnet_mask_witness :
    ((AppConfig.mk "192.168.1.1" 24 [80, 443]).update
        (ChangeConfig.SubnetMask "abc")).subnet_mask = 0 ∧
    ¬(1 ≤ ((AppConfig.mk "192.168.1.1" 24 [80, 443]).update
        (ChangeConfig.SubnetMask "abc")).subnet_mask) :=
  unparsable_subnet_mask_becomes_zero (AppConfig.mk "192.168.1.1" 24 [80, 443]) "abc" (by decide)

end NetMonkey
